import Mathlib

/-!
Shallow embedding of the webhook processing queue (WebhookQueue) and of the
adaptive batch stock synchronizer (syncStocks.js) of the
axam-shopify-sincronizacion repository, with theorems checking the
natural-language specification against the code.
-/

namespace AxamSync

/-! ### JS Map model: association list with string keys -/

/-- Lookup in the association-list model of a JS Map (first binding wins). -/
def mapGet {α : Type} (m : List (String × α)) (k : String) : Option α :=
  match m with
  | [] => none
  | (k₂, v) :: rest => if k₂ = k then some v else mapGet rest k

/-- Overwrite (Map.set): replace the first binding of the key, else append. -/
def mapSet {α : Type} (m : List (String × α)) (k : String) (v : α) :
    List (String × α) :=
  match m with
  | [] => [(k, v)]
  | (k₂, v₂) :: rest =>
    if k₂ = k then (k, v) :: rest else (k₂, v₂) :: mapSet rest k v

/-- Removal (Map.delete): drop every binding of the key. -/
def mapDelete {α : Type} (m : List (String × α)) (k : String) :
    List (String × α) :=
  m.filter (fun p => !(p.1 == k))

/-! ### Data model of the WebhookQueue (src/unnamed/part_000 webhookQueue module) -/

/-- Cache entry status: the status field of processedOrders entries. -/
inductive CacheStatus where
  | processing
  | completed
  | failed
deriving DecidableEq

/-- Entry of the processedOrders cache: orderId maps to timestamp, status and
an optional error message (the result payload is opaque and omitted). -/
structure CacheEntry where
  timestamp : Nat
  status : CacheStatus
  error : Option String := none
deriving DecidableEq

/-- Queue statistics, as in the stats object of WebhookQueue. -/
structure Stats where
  total : Nat := 0
  processed : Nat := 0
  duplicates : Nat := 0
  failed : Nat := 0
  retries : Nat := 0
deriving DecidableEq

/-- WebhookQueue configuration with the constructor defaults. -/
structure WQConfig where
  cacheTTL : Nat := 86400000
  minRequestDelay : Nat := 1500
  maxRetries : Nat := 5
  baseRetryDelay : Nat := 5000
  maxRetryDelay : Nat := 120000
deriving DecidableEq

/-- Item of the webhook queue (topic, shop and the payload body are opaque
for the consumer loop and omitted; orderId identifies the event). -/
structure QueueItem where
  orderId : String
  enqueuedAt : Nat
  retryCount : Nat := 0
deriving DecidableEq

/-- Mutable state of a WebhookQueue instance. -/
structure WQState where
  queue : List QueueItem := []
  processedOrders : List (String × CacheEntry) := []
  isProcessing : Bool := false
  stats : Stats := {}
deriving DecidableEq

/-- Webhook payload: only the two identity fields matter to enqueue; a field
holds the string rendering of the JS value when present. -/
structure WebhookPayload where
  id : Option String := none
  order_id : Option String := none
deriving DecidableEq

/-- JS disjunction a || b on optional strings, where the empty string is
falsy (undefined is modelled by none). -/
def jsOrString (a b : Option String) : Option String :=
  match a with
  | some s => if s = "" then b else some s
  | none => b

/-- orderId extraction of enqueue:
webhookData.id?.toString() || webhookData.order_id?.toString(). -/
def extractOrderId (w : WebhookPayload) : Option String :=
  jsOrString w.id w.order_id

/-- isOrderProcessed: false when the id is falsy or absent from the cache;
an entry older than cacheTTL is evicted and reported absent; otherwise true
exactly for status completed or processing. Returns the flag and the
possibly-updated cache. -/
def isOrderProcessed (cfg : WQConfig) (now : Nat)
    (processedOrders : List (String × CacheEntry)) (orderId : String) :
    Bool × List (String × CacheEntry) :=
  if orderId = "" then (false, processedOrders)
  else
    match mapGet processedOrders orderId with
    | none => (false, processedOrders)
    | some cached =>
      if cfg.cacheTTL < now - cached.timestamp then
        (false, mapDelete processedOrders orderId)
      else
        (cached.status == CacheStatus.completed ||
           cached.status == CacheStatus.processing, processedOrders)

/-- Result object returned by enqueue. -/
structure EnqueueResult where
  queued : Bool
  reason : Option String := none
  orderId : Option String := none
  cacheStatus : Option CacheStatus := none
  position : Option Nat := none
deriving DecidableEq

/-- enqueue(webhookData, topic, shop): rejects payloads without an order id,
rejects duplicates found in the cache (reason duplicate) and events already
waiting in the queue (reason already_queued), otherwise appends a fresh item
with retryCount 0 and reports its 1-based position. -/
def enqueue (cfg : WQConfig) (now : Nat) (s : WQState) (w : WebhookPayload) :
    EnqueueResult × WQState :=
  match extractOrderId w with
  | none => ({ queued := false, reason := some "missing_order_id" }, s)
  | some oid =>
    if oid = "" then
      ({ queued := false, reason := some "missing_order_id" }, s)
    else
      let s₁ : WQState := { s with stats := { s.stats with total := s.stats.total + 1 } }
      let iop := isOrderProcessed cfg now s₁.processedOrders oid
      let s₂ : WQState := { s₁ with processedOrders := iop.2 }
      if iop.1 then
        ({ queued := false, reason := some "duplicate", orderId := some oid,
           cacheStatus := (mapGet s₂.processedOrders oid).map (fun e => e.status) },
         { s₂ with stats := { s₂.stats with duplicates := s₂.stats.duplicates + 1 } })
      else if s₂.queue.any (fun item => item.orderId == oid) then
        ({ queued := false, reason := some "already_queued", orderId := some oid },
         { s₂ with stats := { s₂.stats with duplicates := s₂.stats.duplicates + 1 } })
      else
        let item : QueueItem := { orderId := oid, enqueuedAt := now, retryCount := 0 }
        let newQueue := s₂.queue ++ [item]
        ({ queued := true, orderId := some oid, position := some newQueue.length },
         { s₂ with queue := newQueue })

end AxamSync

namespace AxamSync

/-- C9: a webhook payload carrying neither an id nor an order_id field is
rejected with reason missing_order_id, and the queue, the cache and every
stats counter (stats.total included) are left unchanged. -/
theorem enqueue_missing_order_id_noop (cfg : WQConfig) (now : Nat)
    (s : WQState) (w : WebhookPayload)
    (hid : w.id = none) (hoid : w.order_id = none) :
    (enqueue cfg now s w).1.queued = false ∧
    (enqueue cfg now s w).1.reason = some "missing_order_id" ∧
    (enqueue cfg now s w).2 = s := by
  simp [enqueue, extractOrderId, jsOrString, hid, hoid]

/-- Witness for C9 at a concrete empty payload. -/
theorem enqueue_missing_order_id_noop_witness :
    ({} : WebhookPayload).id = none ∧
    (enqueue {} 0 {} {}).1.queued = false ∧
    (enqueue {} 0 {} {}).1.reason = some "missing_order_id" ∧
    (enqueue {} 0 {} {}).2 = ({} : WQState) := by
  refine ⟨rfl, ?_⟩
  exact enqueue_missing_order_id_noop {} 0 {} {} rfl rfl

/-- C1: an enqueue call for identity oid, while the cache holds an entry for
oid in status processing or completed whose age is within the TTL, returns
queued false with reason duplicate and appends nothing to the queue. -/
theorem enqueue_duplicate_rejected (cfg : WQConfig) (now : Nat) (s : WQState)
    (w : WebhookPayload) (oid : String) (e : CacheEntry)
    (hoid : extractOrderId w = some oid) (hne : oid ≠ "")
    (hget : mapGet s.processedOrders oid = some e)
    (httl : now - e.timestamp ≤ cfg.cacheTTL)
    (hstatus : e.status = CacheStatus.processing ∨ e.status = CacheStatus.completed) :
    (enqueue cfg now s w).1.queued = false ∧
    (enqueue cfg now s w).1.reason = some "duplicate" ∧
    (enqueue cfg now s w).2.queue = s.queue := by
  have hlt : ¬ cfg.cacheTTL < now - e.timestamp := not_lt.mpr httl
  have hflag : (isOrderProcessed cfg now s.processedOrders oid).1 = true := by
    simp only [isOrderProcessed, hget, if_neg hne, if_neg hlt]
    rcases hstatus with h | h <;> simp [h]
  have hmap : (isOrderProcessed cfg now s.processedOrders oid).2 = s.processedOrders := by
    simp only [isOrderProcessed, hget, if_neg hne, if_neg hlt]
  simp [enqueue, hoid, hne, hflag, hmap]

/-- Deleting a key removes every binding of it. -/
theorem mapGet_mapDelete {α : Type} (m : List (String × α)) (k : String) :
    mapGet (mapDelete m k) k = none := by
  induction m with
  | nil => rfl
  | cons p rest ih =>
    by_cases h : p.1 = k
    · simpa [mapDelete, List.filter_cons, h] using ih
    · simpa [mapDelete, List.filter_cons, mapGet, h] using ih

/-- Once isOrderProcessed reports an identity as not processed, repeating the
check on the cache it returned still reports it as not processed, at any
later (or other) time. -/
theorem isOrderProcessed_false_stable (cfg : WQConfig) (now₁ now₂ : Nat)
    (m : List (String × CacheEntry)) (oid : String)
    (h : (isOrderProcessed cfg now₁ m oid).1 = false) :
    (isOrderProcessed cfg now₂ (isOrderProcessed cfg now₁ m oid).2 oid).1 = false := by
  by_cases hne : oid = ""
  · simp [isOrderProcessed, hne]
  · cases hget : mapGet m oid with
    | none => simp [isOrderProcessed, hne, hget]
    | some e =>
      by_cases httl : cfg.cacheTTL < now₁ - e.timestamp
      · simp [isOrderProcessed, hne, hget, httl, mapGet_mapDelete]
      · have hstat : (e.status == CacheStatus.completed ||
            e.status == CacheStatus.processing) = false := by
          simpa [isOrderProcessed, hne, hget, httl] using h
        by_cases httl₂ : cfg.cacheTTL < now₂ - e.timestamp
        · simp [isOrderProcessed, hne, hget, httl, httl₂, mapGet_mapDelete]
        · simp [isOrderProcessed, hne, hget, httl, httl₂, hstat]

/-- Witness for C1 on a concrete state holding a processing entry. -/
theorem enqueue_duplicate_rejected_witness :
    (enqueue {} 10
        { processedOrders := [("77", { timestamp := 4, status := CacheStatus.processing })] }
        { id := some "77" }).1.queued = false ∧
    (enqueue {} 10
        { processedOrders := [("77", { timestamp := 4, status := CacheStatus.processing })] }
        { id := some "77" }).1.reason = some "duplicate" ∧
    (enqueue {} 10
        { processedOrders := [("77", { timestamp := 4, status := CacheStatus.processing })] }
        { id := some "77" }).2.queue = [] := by
  exact enqueue_duplicate_rejected {} 10
    { processedOrders := [("77", { timestamp := 4, status := CacheStatus.processing })] }
    { id := some "77" } "77" { timestamp := 4, status := CacheStatus.processing }
    (by decide) (by decide) (by decide) (by decide) (Or.inl rfl)

/-- C6: a second enqueue of the same payload, with no consumer step having
run in between, is rejected with reason already_queued whenever the first
enqueue accepted the event. -/
theorem enqueue_twice_already_queued (cfg : WQConfig) (now₁ now₂ : Nat)
    (s : WQState) (w : WebhookPayload)
    (h : (enqueue cfg now₁ s w).1.queued = true) :
    (enqueue cfg now₂ (enqueue cfg now₁ s w).2 w).1.queued = false ∧
    (enqueue cfg now₂ (enqueue cfg now₁ s w).2 w).1.reason = some "already_queued" := by
  cases hoid : extractOrderId w with
  | none => simp [enqueue, hoid] at h
  | some oid =>
    by_cases hne : oid = ""
    · simp [enqueue, hoid, hne] at h
    · by_cases hdup : (isOrderProcessed cfg now₁ s.processedOrders oid).1 = true
      · simp [enqueue, hoid, hne, hdup] at h
      · by_cases hq : s.queue.any (fun item => item.orderId == oid) = true
        · simp [enqueue, hoid, hne, hdup, hq] at h
        · have hdup₂ : (isOrderProcessed cfg now₂
              (isOrderProcessed cfg now₁ s.processedOrders oid).2 oid).1 = false :=
            isOrderProcessed_false_stable cfg now₁ now₂ s.processedOrders oid
              (by simpa using hdup)
          simp [enqueue, hoid, hne, hdup, hq, hdup₂]

/-- Witness for C6: two enqueues of order 5 on the fresh queue. -/
theorem enqueue_twice_already_queued_witness :
    (enqueue {} 0 {} { id := some "5" }).1.queued = true ∧
    (enqueue {} 1 (enqueue {} 0 {} { id := some "5" }).2 { id := some "5" }).1.queued = false ∧
    (enqueue {} 1 (enqueue {} 0 {} { id := some "5" }).2 { id := some "5" }).1.reason
      = some "already_queued" := by
  have h := enqueue_twice_already_queued {} 0 1 {} { id := some "5" } (by decide)
  exact ⟨by decide, h.1, h.2⟩

/-! ### Consumer loop (processQueue) -/

/-- Outcome object produced by the registered webhook processor as wrapped by
setProcessor: success flag, retry flag and error message. -/
structure ProcResult where
  success : Bool
  retry : Bool := false
  error : Option String := none
deriving DecidableEq

/-- What one iteration of the processQueue loop did with the head item. -/
inductive StepOutcome where
  | completed
  | retried (delayMs : Nat)
  | failedTerminal
  | idle
deriving DecidableEq

/-- Boolean test for a retried step outcome. -/
def isRetriedOutcome : StepOutcome → Bool
  | StepOutcome.retried _ => true
  | _ => false

/-- One iteration of the processQueue while loop: mark the head item as
processing, run the processor, then either complete and dequeue, or bump
retryCount, count the retry, compute the exponential backoff delay, clear
the cache entry and keep the item queued, or mark failed and dequeue. -/
def processStep (cfg : WQConfig) (now : Nat) (proc : QueueItem → ProcResult)
    (s : WQState) : StepOutcome × WQState :=
  match s.queue with
  | [] => (StepOutcome.idle, s)
  | item :: rest =>
    let entryProcessing : CacheEntry := { timestamp := now, status := CacheStatus.processing }
    let s₁ : WQState :=
      { s with processedOrders := mapSet s.processedOrders item.orderId entryProcessing }
    let result := proc item
    if result.success then
      (StepOutcome.completed,
       { s₁ with
         processedOrders := mapSet s₁.processedOrders item.orderId
           { timestamp := now, status := CacheStatus.completed },
         stats := { s₁.stats with processed := s₁.stats.processed + 1 },
         queue := rest })
    else if result.retry && decide (item.retryCount < cfg.maxRetries) then
      let newCount := item.retryCount + 1
      let retryDelay := min (cfg.baseRetryDelay * 2 ^ (newCount - 1)) cfg.maxRetryDelay
      (StepOutcome.retried retryDelay,
       { s₁ with
         queue := { item with retryCount := newCount } :: rest,
         stats := { s₁.stats with retries := s₁.stats.retries + 1 },
         processedOrders := mapDelete s₁.processedOrders item.orderId })
    else
      (StepOutcome.failedTerminal,
       { s₁ with
         processedOrders := mapSet s₁.processedOrders item.orderId
           { timestamp := now, status := CacheStatus.failed, error := result.error },
         stats := { s₁.stats with failed := s₁.stats.failed + 1 },
         queue := rest })

/-- Fuel-bounded run of the processQueue loop, recording after each step the
outcome and the state it produced; stops when the queue drains. -/
def processQueueRun (cfg : WQConfig) (now : Nat) (proc : QueueItem → ProcResult) :
    Nat → WQState → List (StepOutcome × WQState) × WQState
  | 0, s => ([], s)
  | fuel + 1, s =>
    match s.queue with
    | [] => ([], s)
    | _ :: _ =>
      let step := processStep cfg now proc s
      let rest := processQueueRun cfg now proc fuel step.2
      ((step.1, step.2) :: rest.1, rest.2)

/-- Delay selection of getManagerProductBySKU on an HTTP 429 response: the
server-suggested retry-after header (in seconds) wins whenever present,
otherwise the computed fallback min(5000, 1500 * attempt). -/
def managerRetryMs (attempt : Nat) (retryAfterHeader : Option Nat) : Nat :=
  match retryAfterHeader with
  | some ra => ra * 1000
  | none => min 5000 (1500 * attempt)

/-- Processor used as a concrete retrying webhook input. -/
def procAlwaysRateLimit (_ : QueueItem) : ProcResult :=
  { success := false, retry := true, error := some "Rate limit" }

/-- C2: when the head item fails recoverably on attempt n = retryCount + 1
with retries left, the consumer sleeps exactly min(base * 2 ^ (n - 1), cap);
and in getManagerProductBySKU, whenever the server-suggested wait exceeds
the computed fallback delay, the suggested wait is the one used. -/
theorem backoff_formula (cfg : WQConfig) (now : Nat)
    (proc : QueueItem → ProcResult) (s : WQState) (item : QueueItem)
    (rest : List QueueItem)
    (hq : s.queue = item :: rest)
    (hfail : (proc item).success = false)
    (hretry : (proc item).retry = true)
    (hlt : item.retryCount < cfg.maxRetries) :
    (processStep cfg now proc s).1 =
      StepOutcome.retried
        (min (cfg.baseRetryDelay * 2 ^ (item.retryCount + 1 - 1)) cfg.maxRetryDelay) ∧
    (∀ ra attempt : Nat, min 5000 (1500 * attempt) < ra * 1000 →
      managerRetryMs attempt (some ra) = ra * 1000) := by
  constructor
  · simp [processStep, hq, hfail, hretry, hlt]
  · intro ra attempt _
    rfl

/-- Witness for C2: third failed attempt with default config sleeps
5000 * 4 = 20000 ms; a suggested wait of 10 s beats the 1500 ms fallback. -/
theorem backoff_formula_witness :
    (processStep {} 0 procAlwaysRateLimit
        { queue := [{ orderId := "X", enqueuedAt := 0, retryCount := 2 }] }).1 =
      StepOutcome.retried 20000 ∧
    managerRetryMs 1 (some 10) = 10000 := by
  have h := backoff_formula {} 0 procAlwaysRateLimit
    { queue := [{ orderId := "X", enqueuedAt := 0, retryCount := 2 }] }
    { orderId := "X", enqueuedAt := 0, retryCount := 2 } [] rfl rfl rfl (by decide)
  refine ⟨?_, h.2 10 1 (by decide)⟩
  rw [h.1]
  decide

/-! ### C7 scenario: rate limit on attempts 1 to 3, success on attempt 4 -/

/-- Processor returning a recoverable rate-limit outcome on attempts 1-3 and
success on attempt 4 (the attempt number is retryCount + 1). -/
def procRateLimitThenOk (it : QueueItem) : ProcResult :=
  if it.retryCount + 1 ≤ 3 then
    { success := false, retry := true, error := some "429 rate limit" }
  else
    { success := true }

/-- Initial state holding the single event E. -/
def stateE : WQState := { queue := [{ orderId := "E", enqueuedAt := 0 }] }

/-- The C7 run: default config (maxRetries 5), ample fuel. -/
def runC7 : List (StepOutcome × WQState) × WQState :=
  processQueueRun {} 0 procRateLimitThenOk 10 stateE

/-- C7: with maxRetries 5 and the processor of procRateLimitThenOk, the
consumer run ends with the cache entry for E completed and stats.retries 3;
after every retried step (before its sleep) the cache entry for E is cleared
while E is still at the head of the queue; exactly 3 steps were retries. -/
theorem retry_then_success_scenario :
    ((mapGet runC7.2.processedOrders "E").map (fun e => e.status)
        = some CacheStatus.completed) ∧
    runC7.2.stats.retries = 3 ∧
    (runC7.1.all (fun p =>
        !(isRetriedOutcome p.1) ||
          ((mapGet p.2.processedOrders "E" == (none : Option CacheEntry)) &&
           !(p.2.queue.isEmpty) &&
           ((p.2.queue.head?.map (fun it => it.orderId)) == some "E"))) = true) ∧
    ((runC7.1.filter (fun p => isRetriedOutcome p.1)).length = 3) := by
  decide

/-! ### Batch stock synchronizer (src/syncStocks.js) -/

/-- Character-list prefix test. -/
def startsWithList : List Char → List Char → Bool
  | [], _ => true
  | _ :: _, [] => false
  | a :: as, b :: bs => a == b && startsWithList as bs

/-- Character-list infix test. -/
def hasSubList (pat : List Char) : List Char → Bool
  | [] => pat.isEmpty
  | b :: bs => startsWithList pat (b :: bs) || hasSubList pat bs

/-- JS String.prototype.includes. -/
def strIncludes (s pat : String) : Bool :=
  hasSubList pat.data s.data

/-- Per-SKU result object of syncProductStock. -/
structure SyncResult where
  sku : String
  success : Bool
  action : String
  error : Option String := none
  managerStock : Option Int := none
  shopifyStock : Option Int := none
  newStock : Option Int := none
  message : Option String := none
deriving DecidableEq

/-- Rate-limit detection of processInParallel over one result: a truthy
error string containing Rate limit or 429. -/
def isRateLimitResult (r : SyncResult) : Bool :=
  match r.error with
  | some e => !(e == "") && (strIncludes e "Rate limit" || strIncludes e "429")
  | none => false

/-- Number of rate-limit flagged results in the chunk starting at index i. -/
def chunkRateLimitCount (processor : String → SyncResult) (arr : List String)
    (i concurrency : Nat) : Nat :=
  ((((arr.drop i).take concurrency).map processor).filter isRateLimitResult).length

/-- Concurrency adjustment after a chunk: when the chunk contained at least
one rate-limit flagged result, drop to max(1, floor(concurrency / 2)) if
that is smaller; otherwise the concurrency is left unchanged. -/
def concAfterChunk (chunkRateLimitErrors concurrency : Nat) : Nat :=
  if 0 < chunkRateLimitErrors then
    let newConcurrency := max 1 (concurrency / 2)
    if newConcurrency < concurrency then newConcurrency else concurrency
  else concurrency

/-- Observable record of one processInParallel run: the collected results,
the concurrency in force at each chunk, and the backoff sleeps taken. -/
structure ParallelRun where
  results : List SyncResult := []
  concTrace : List Nat := []
  sleeps : List Nat := []
deriving DecidableEq

/-- Fuel-bounded loop of processInParallel: the chunk is cut with the current
concurrency, rate-limit flagged results shrink the concurrency and add a
backoff sleep min(10000, 1500 + accumulated * 500), and the loop index is
advanced by the possibly-updated concurrency. -/
def processInParallelGo (processor : String → SyncResult) (arr : List String) :
    Nat → Nat → Nat → Nat → ParallelRun
  | 0, _, _, _ => {}
  | fuel + 1, i, concurrency, rateLimitErrors =>
    if arr.length ≤ i then {}
    else
      let chunkResults := ((arr.drop i).take concurrency).map processor
      let chunkRL := chunkRateLimitCount processor arr i concurrency
      let rlTotal := rateLimitErrors + chunkRL
      let cNext := concAfterChunk chunkRL concurrency
      let newSleeps := if 0 < chunkRL then [min 10000 (1500 + rlTotal * 500)] else []
      let rest := processInParallelGo processor arr fuel (i + cNext) cNext rlTotal
      { results := chunkResults ++ rest.results,
        concTrace := concurrency :: rest.concTrace,
        sleeps := newSleeps ++ rest.sleeps }

/-- processInParallel(array, processor, concurrency). -/
def processInParallel (processor : String → SyncResult) (arr : List String)
    (concurrency : Nat) : ParallelRun :=
  processInParallelGo processor arr (arr.length + 1) 0 concurrency 0

/-- Initial concurrency of syncMultipleProducts: options.concurrency || 5,
clamped to the absolute maximum of 50. -/
def initConcurrency (optConcurrency : Option Nat) : Nat :=
  let c :=
    match optConcurrency with
    | none => 5
    | some v => if v = 0 then 5 else v
  if 50 < c then 50 else c

/-- Reduced concurrency used by the retry passes of syncMultipleProducts:
max(2, floor(concurrency / 2)). -/
def retryConcurrency (concurrency : Nat) : Nat :=
  max 2 (concurrency / 2)

/-- Manager+ product as far as the stock sync needs it. -/
structure ManagerProduct where
  sku : String := ""
  nombre : String := ""
  stock : Int := 0
deriving DecidableEq

/-- Shopify variant as cached by loadAllShopifyProducts. -/
structure ShopifyProduct where
  sku : String := ""
  inventoryItemId : Nat := 0
  currentStock : Int := 0
deriving DecidableEq

/-- Options read by syncProductStock. -/
structure SyncOptions where
  dryRun : Bool := false
  forceUpdate : Bool := false
deriving DecidableEq

/-- syncProductStock: Manager+ lookup (which may throw, modelled by Except),
Shopify cache lookup, stock comparison honoring forceUpdate, dry-run, and
the Shopify inventory write whose failure is modelled by updateErr. -/
def syncProductStock (sku : String) (opts : SyncOptions)
    (managerLookup : String → Except String (Option ManagerProduct))
    (shopifyLookup : String → Option ShopifyProduct)
    (updateErr : Option String) : SyncResult :=
  match managerLookup sku with
  | Except.error e =>
    { sku := sku, success := false, error := some e, action := "error" }
  | Except.ok none =>
    { sku := sku, success := false,
      error := some "Producto no encontrado en Manager+", action := "skipped" }
  | Except.ok (some managerProduct) =>
    match shopifyLookup sku with
    | none =>
      { sku := sku, success := false,
        error := some "Producto no encontrado en Shopify", action := "skipped" }
    | some shopifyProduct =>
      let managerStock := managerProduct.stock
      let shopifyStock := shopifyProduct.currentStock
      if managerStock == shopifyStock && !opts.forceUpdate then
        { sku := sku, success := true, action := "no_change",
          managerStock := some managerStock, shopifyStock := some shopifyStock,
          message := some "Stocks ya estan sincronizados" }
      else if opts.dryRun then
        { sku := sku, success := true, action := "would_update",
          managerStock := some managerStock, shopifyStock := some shopifyStock,
          newStock := some managerStock,
          message := some "Dry run: no se realizaron cambios" }
      else
        match updateErr with
        | some e =>
          { sku := sku, success := false, error := some e, action := "error" }
        | none =>
          { sku := sku, success := true, action := "updated",
            managerStock := some managerStock, shopifyStock := some shopifyStock,
            newStock := some managerStock,
            message := some "Stock actualizado exitosamente" }

/-- Summary counters of syncMultipleProducts. -/
structure SyncSummary where
  total : Nat := 0
  updated : Nat := 0
  skipped : Nat := 0
  errors : Nat := 0
  noChange : Nat := 0
deriving DecidableEq

/-- One step of the result tallying loop of syncMultipleProducts. -/
def tallyResult (acc : SyncSummary) (result : SyncResult) : SyncSummary :=
  if result.success then
    if result.action == "updated" || result.action == "would_update" then
      { acc with updated := acc.updated + 1 }
    else if result.action == "no_change" then
      { acc with noChange := acc.noChange + 1 }
    else
      { acc with skipped := acc.skipped + 1 }
  else
    { acc with errors := acc.errors + 1 }

/-- Tally of the whole details list. -/
def tallyResults (total : Nat) (details : List SyncResult) : SyncSummary :=
  details.foldl tallyResult { total := total }

/-- Recoverable-failure filter used to build the retry work list: failed,
action error, and an error string naming neither no encontrado nor skipped. -/
def isRetryableFailure (r : SyncResult) : Bool :=
  !r.success && r.action == "error" &&
    (match r.error with
     | some e => !(e == "") && !(strIncludes e "no encontrado") && !(strIncludes e "skipped")
     | none => false)

/-- The products re-submitted by a retry pass. -/
def failedProducts (details : List SyncResult) : List SyncResult :=
  details.filter isRetryableFailure

/-- Concrete batch worker that always reports a rate limit. -/
def procRLBatch (sku : String) : SyncResult :=
  { sku := sku, success := false, action := "error",
    error := some "Rate limit alcanzado en Manager+ (429). Reduce la concurrencia." }

/-- Concrete batch worker that always updates. -/
def procOkBatch (sku : String) : SyncResult :=
  { sku := sku, success := true, action := "updated" }

/-- Seven keys, so a second chunk exists at concurrency 5. -/
def arrSeven : List String := ["a", "b", "c", "d", "e", "f", "g"]

/-- Six keys, so a second chunk exists at concurrency 3. -/
def arrSix : List String := ["a", "b", "c", "d", "e", "f"]

/-- C3 counterexample: at previous concurrency 5 and a chunk full of
rate-limit outcomes, the next chunk runs at 2 = max(1, floor(5 / 2)), not at
max(1, round(5 / 2)) = 3 as the claim computes. -/
theorem halving_round_counterexample :
    0 < chunkRateLimitCount procRLBatch arrSeven 0 5 ∧
    (processInParallel procRLBatch arrSeven 5).concTrace.get? 1 = some 2 ∧
    max 1 ((5 + 1) / 2) ≠ 2 := by
  refine ⟨by decide, by decide, by decide⟩

/-- C3 as amended: after a chunk containing at least one recoverable
rate-limit outcome, the loop continues with concurrency
max(floor, floor(prev / 2)) — integer floor division, with floor bound 1 —
both as the value of the update expression and in the run itself. -/
theorem halving_on_signal (processor : String → SyncResult) (arr : List String)
    (fuel i concurrency rateLimitErrors : Nat)
    (hi : i < arr.length) (hc : 1 ≤ concurrency)
    (hrl : 0 < chunkRateLimitCount processor arr i concurrency) :
    concAfterChunk (chunkRateLimitCount processor arr i concurrency) concurrency
        = max 1 (concurrency / 2) ∧
    (processInParallelGo processor arr (fuel + 1) i concurrency rateLimitErrors).concTrace
        = concurrency ::
          (processInParallelGo processor arr fuel (i + max 1 (concurrency / 2))
            (max 1 (concurrency / 2))
            (rateLimitErrors + chunkRateLimitCount processor arr i concurrency)).concTrace := by
  have hni : ¬ arr.length ≤ i := not_le.mpr hi
  have hca : concAfterChunk (chunkRateLimitCount processor arr i concurrency) concurrency
      = max 1 (concurrency / 2) := by
    simp only [concAfterChunk, hrl, if_true]
    split
    · rfl
    · omega
  refine ⟨hca, ?_⟩
  simp only [processInParallelGo, hni, if_false, hca]

/-- Witness for the amended C3 on the concrete rate-limited run. -/
theorem halving_on_signal_witness :
    concAfterChunk (chunkRateLimitCount procRLBatch arrSeven 0 5) 5 = max 1 (5 / 2) ∧
    (processInParallelGo procRLBatch arrSeven 3 0 5 0).concTrace
      = 5 :: (processInParallelGo procRLBatch arrSeven 2 (0 + max 1 (5 / 2)) (max 1 (5 / 2))
          (0 + chunkRateLimitCount procRLBatch arrSeven 0 5)).concTrace := by
  exact halving_on_signal procRLBatch arrSeven 2 0 5 0 (by decide) (by decide) (by decide)

/-- C4 counterexample: a clean chunk at concurrency 3 is followed by a chunk
at concurrency 3 again, not at min(3 + 1, ceiling) = 4 as the claim computes. -/
theorem growth_counterexample :
    chunkRateLimitCount procOkBatch arrSix 0 3 = 0 ∧
    (processInParallel procOkBatch arrSix 3).concTrace.get? 1 = some 3 ∧
    min (3 + 1) 50 ≠ 3 := by
  refine ⟨by decide, by decide, by decide⟩

/-- C4 as amended: a chunk with no rate-limit outcome leaves the concurrency
unchanged for the next chunk — the code never grows it. -/
theorem no_signal_concurrency_unchanged (processor : String → SyncResult)
    (arr : List String) (fuel i concurrency rateLimitErrors : Nat)
    (hi : i < arr.length)
    (hrl : chunkRateLimitCount processor arr i concurrency = 0) :
    concAfterChunk (chunkRateLimitCount processor arr i concurrency) concurrency
        = concurrency ∧
    (processInParallelGo processor arr (fuel + 1) i concurrency rateLimitErrors).concTrace
      = concurrency ::
        (processInParallelGo processor arr fuel (i + concurrency) concurrency
          rateLimitErrors).concTrace := by
  have hni : ¬ arr.length ≤ i := not_le.mpr hi
  have hca : concAfterChunk (chunkRateLimitCount processor arr i concurrency) concurrency
      = concurrency := by
    simp [concAfterChunk, hrl]
  have hca0 : concAfterChunk 0 concurrency = concurrency := by
    simp [concAfterChunk]
  refine ⟨hca, ?_⟩
  simp only [processInParallelGo, hni, if_false, hca, hrl, hca0, Nat.add_zero]

/-- Witness for the amended C4 on the concrete clean run. -/
theorem no_signal_concurrency_unchanged_witness :
    concAfterChunk (chunkRateLimitCount procOkBatch arrSix 0 3) 3 = 3 ∧
    (processInParallelGo procOkBatch arrSix 3 0 3 0).concTrace
      = 3 :: (processInParallelGo procOkBatch arrSix 2 (0 + 3) 3 0).concTrace := by
  exact no_signal_concurrency_unchanged procOkBatch arrSix 2 0 3 0 (by decide) (by decide)

/-- After any chunk the concurrency stays at least 1 and never grows. -/
theorem concAfterChunk_bounds (k concurrency : Nat) (hc : 1 ≤ concurrency) :
    1 ≤ concAfterChunk k concurrency ∧ concAfterChunk k concurrency ≤ concurrency := by
  simp only [concAfterChunk]
  split
  · split <;> omega
  · omega

/-- Every concurrency value recorded during a run stays within the bounds of
the starting value, given it starts within floor 1 and ceiling 50. -/
theorem concTrace_bounds (processor : String → SyncResult) (arr : List String) :
    ∀ fuel i concurrency rateLimitErrors : Nat, 1 ≤ concurrency → concurrency ≤ 50 →
    ∀ c ∈ (processInParallelGo processor arr fuel i concurrency rateLimitErrors).concTrace,
      1 ≤ c ∧ c ≤ 50 := by
  intro fuel
  induction fuel with
  | zero =>
    intro i concurrency rl h1 h2 c hc
    simp [processInParallelGo, ParallelRun.concTrace] at hc
  | succ fuel ih =>
    intro i concurrency rl h1 h2 c hc
    by_cases hni : arr.length ≤ i
    · simp [processInParallelGo, hni, ParallelRun.concTrace] at hc
    · simp only [processInParallelGo, hni, if_false] at hc
      rcases List.mem_cons.mp hc with h | h
      · subst h; exact ⟨h1, h2⟩
      · have hb := concAfterChunk_bounds
          (chunkRateLimitCount processor arr i concurrency) concurrency h1
        exact ih _ _ _ hb.1 (le_trans hb.2 h2) c h

/-- C5: the initial concurrency of syncMultipleProducts lies in [1, 50]
(floor 1, ceiling 50, the hard-coded bounds), every concurrency value in
force during the chunk loop stays in [1, 50], and the reduced concurrency of
the retry passes does too. -/
theorem concurrency_bounds :
    (∀ o : Option Nat, 1 ≤ initConcurrency o ∧ initConcurrency o ≤ 50) ∧
    (∀ (processor : String → SyncResult) (arr : List String) (o : Option Nat) (c : Nat),
       c ∈ (processInParallel processor arr (initConcurrency o)).concTrace →
         1 ≤ c ∧ c ≤ 50) ∧
    (∀ concurrency : Nat, concurrency ≤ 50 →
       1 ≤ retryConcurrency concurrency ∧ retryConcurrency concurrency ≤ 50) := by
  have hinit : ∀ o : Option Nat, 1 ≤ initConcurrency o ∧ initConcurrency o ≤ 50 := by
    intro o
    rcases o with _ | v
    · simp [initConcurrency]
    · by_cases h0 : v = 0
      · simp [initConcurrency, h0]
      · simp only [initConcurrency, h0, if_false]
        split <;> omega
  refine ⟨hinit, ?_, ?_⟩
  · intro processor arr o c hc
    exact concTrace_bounds processor arr _ _ _ _ (hinit o).1 (hinit o).2 c hc
  · intro concurrency h
    simp only [retryConcurrency]
    constructor <;> omega

/-- Witness for C5 at concurrency option 5 over a clean six-key run. -/
theorem concurrency_bounds_witness :
    (1 ≤ initConcurrency (some 5) ∧ initConcurrency (some 5) ≤ 50) ∧
    (1 ≤ (5 : Nat) ∧ (5 : Nat) ≤ 50) ∧
    (1 ≤ retryConcurrency 5 ∧ retryConcurrency 5 ≤ 50) := by
  refine ⟨concurrency_bounds.1 (some 5), ?_, concurrency_bounds.2.2 5 (by decide)⟩
  exact concurrency_bounds.2.1 procOkBatch arrSix (some 5) 5 (by decide)

/-- A result whose action is skipped never passes the retry filter and is
therefore never part of the list a retry pass re-submits. -/
theorem skipped_not_retryable (r : SyncResult) (ha : r.action = "skipped") :
    isRetryableFailure r = false ∧ ∀ details, r ∈ failedProducts details → False := by
  have hrf : isRetryableFailure r = false := by
    simp [isRetryableFailure, ha]
  refine ⟨hrf, ?_⟩
  intro details hmem
  have hmf := (List.mem_filter.mp hmem).2
  rw [hrf] at hmf
  cases hmf

/-- Every lookup from the manager dataset used for C8 is absent. -/
def mlAbsent (_ : String) : Except String (Option ManagerProduct) :=
  Except.ok none

/-- Manager dataset used for C8 with stock 7 everywhere. -/
def mlStock7 (_ : String) : Except String (Option ManagerProduct) :=
  Except.ok (some { stock := 7 })

/-- Every lookup from the Shopify dataset used for C8 is absent. -/
def slAbsent (_ : String) : Option ShopifyProduct :=
  none

/-- Shopify dataset used for C8 with current stock 7 everywhere. -/
def slStock7 (_ : String) : Option ShopifyProduct :=
  some { currentStock := 7 }

/-- C8: a key absent from Manager+ or from Shopify yields action skipped and
never enters the retry work list; a key whose stocks already match yields
no_change unless forceUpdate is set, in which case the write happens anyway
and the action is updated. -/
theorem skipped_and_no_change_policy (sku : String) (opts : SyncOptions)
    (managerLookup : String → Except String (Option ManagerProduct))
    (shopifyLookup : String → Option ShopifyProduct)
    (updateErr : Option String) :
    (managerLookup sku = Except.ok none →
       (syncProductStock sku opts managerLookup shopifyLookup updateErr).action = "skipped" ∧
       isRetryableFailure (syncProductStock sku opts managerLookup shopifyLookup updateErr)
         = false ∧
       ∀ details, syncProductStock sku opts managerLookup shopifyLookup updateErr
           ∈ failedProducts details → False) ∧
    (∀ mp, managerLookup sku = Except.ok (some mp) → shopifyLookup sku = none →
       (syncProductStock sku opts managerLookup shopifyLookup updateErr).action = "skipped" ∧
       isRetryableFailure (syncProductStock sku opts managerLookup shopifyLookup updateErr)
         = false ∧
       ∀ details, syncProductStock sku opts managerLookup shopifyLookup updateErr
           ∈ failedProducts details → False) ∧
    (∀ mp sp, managerLookup sku = Except.ok (some mp) → shopifyLookup sku = some sp →
       mp.stock = sp.currentStock → opts.forceUpdate = false →
       (syncProductStock sku opts managerLookup shopifyLookup updateErr).action
         = "no_change") ∧
    (∀ mp sp, managerLookup sku = Except.ok (some mp) → shopifyLookup sku = some sp →
       opts.forceUpdate = true → opts.dryRun = false → updateErr = none →
       (syncProductStock sku opts managerLookup shopifyLookup updateErr).action
         = "updated") := by
  refine ⟨?_, ?_, ?_, ?_⟩
  · intro hml
    have ha : (syncProductStock sku opts managerLookup shopifyLookup updateErr).action
        = "skipped" := by
      simp [syncProductStock, hml]
    exact ⟨ha, skipped_not_retryable _ ha⟩
  · intro mp hml hsl
    have ha : (syncProductStock sku opts managerLookup shopifyLookup updateErr).action
        = "skipped" := by
      simp [syncProductStock, hml, hsl]
    exact ⟨ha, skipped_not_retryable _ ha⟩
  · intro mp sp hml hsl hstock hforce
    simp [syncProductStock, hml, hsl, hstock, hforce]
  · intro mp sp hml hsl hforce hdry hupd
    simp [syncProductStock, hml, hsl, hforce, hdry, hupd]

/-- Witness for C8: absent key skipped and not retried, matching stocks give
no_change, and forceUpdate rewrites matching stocks. -/
theorem skipped_and_no_change_policy_witness :
    (syncProductStock "A" {} mlAbsent slAbsent none).action = "skipped" ∧
    isRetryableFailure (syncProductStock "A" {} mlAbsent slAbsent none) = false ∧
    (syncProductStock "B" {} mlStock7 slStock7 none).action = "no_change" ∧
    (syncProductStock "B" { forceUpdate := true } mlStock7 slStock7 none).action
      = "updated" := by
  have h1 := (skipped_and_no_change_policy "A" {} mlAbsent slAbsent none).1 rfl
  have h2 := (skipped_and_no_change_policy "B" {} mlStock7 slStock7 none).2.2.1
    { stock := 7 } { currentStock := 7 } rfl rfl rfl rfl
  have h3 := (skipped_and_no_change_policy "B" { forceUpdate := true } mlStock7 slStock7
    none).2.2.2 { stock := 7 } { currentStock := 7 } rfl rfl rfl rfl rfl
  exact ⟨h1.1, h1.2.1, h2, h3⟩

/-- Every syncProductStock result is either failed, or carries one of the
three successful actions — so a successful skipped result is impossible. -/
theorem syncProductStock_success_action (sku : String) (opts : SyncOptions)
    (managerLookup : String → Except String (Option ManagerProduct))
    (shopifyLookup : String → Option ShopifyProduct)
    (updateErr : Option String) :
    (syncProductStock sku opts managerLookup shopifyLookup updateErr).success = false ∨
    (syncProductStock sku opts managerLookup shopifyLookup updateErr).action = "no_change" ∨
    (syncProductStock sku opts managerLookup shopifyLookup updateErr).action
      = "would_update" ∨
    (syncProductStock sku opts managerLookup shopifyLookup updateErr).action = "updated" := by
  cases hml : managerLookup sku with
  | error e => simp [syncProductStock, hml]
  | ok mo =>
    cases mo with
    | none => simp [syncProductStock, hml]
    | some mp =>
      cases hsl : shopifyLookup sku with
      | none => simp [syncProductStock, hml, hsl]
      | some sp =>
        by_cases hc : (mp.stock == sp.currentStock && !opts.forceUpdate) = true
        · simp [syncProductStock, hml, hsl, hc]
        · by_cases hd : opts.dryRun = true
          · simp [syncProductStock, hml, hsl, hc, hd]
          · cases hue : updateErr with
            | none => simp [syncProductStock, hml, hsl, hc, hd, hue]
            | some e => simp [syncProductStock, hml, hsl, hc, hd, hue]

/-- Tallying a result that is failed or successful with one of the three
successful actions never touches the skipped counter. -/
theorem tallyResult_skipped (acc : SyncSummary) (r : SyncResult)
    (h : r.success = false ∨ r.action = "no_change" ∨ r.action = "would_update" ∨
         r.action = "updated") :
    (tallyResult acc r).skipped = acc.skipped := by
  cases hs : r.success with
  | false => simp [tallyResult, hs]
  | true =>
    rcases h with h1 | h1 | h1 | h1
    · rw [hs] at h1; cases h1
    · simp [tallyResult, hs, h1]
    · simp [tallyResult, hs, h1]
    · simp [tallyResult, hs, h1]

/-- Folding the tally over such results keeps the skipped counter fixed. -/
theorem tally_skipped_foldl (details : List SyncResult)
    (h : ∀ r ∈ details, r.success = false ∨ r.action = "no_change" ∨
         r.action = "would_update" ∨ r.action = "updated") :
    ∀ acc : SyncSummary, (details.foldl tallyResult acc).skipped = acc.skipped := by
  induction details with
  | nil => intro acc; rfl
  | cons r rest ih =>
    intro acc
    rw [List.foldl_cons,
      ih (fun x hx => h x (List.mem_cons_of_mem r hx)) (tallyResult acc r)]
    exact tallyResult_skipped acc r (h r (List.mem_cons_self r rest))

/-- C10: a skipped syncProductStock result has success false; the tallying
loop routes every failed result into the errors counter and leaves the
skipped counter alone; hence over any key list the summary reports
skipped = 0. -/
theorem skipped_counter_zero :
    (∀ (sku : String) (opts : SyncOptions)
       (managerLookup : String → Except String (Option ManagerProduct))
       (shopifyLookup : String → Option ShopifyProduct) (updateErr : Option String),
       (syncProductStock sku opts managerLookup shopifyLookup updateErr).action = "skipped" →
       (syncProductStock sku opts managerLookup shopifyLookup updateErr).success = false) ∧
    (∀ (acc : SyncSummary) (r : SyncResult), r.success = false →
       (tallyResult acc r).errors = acc.errors + 1 ∧
       (tallyResult acc r).skipped = acc.skipped) ∧
    (∀ (keys : List String) (opts : SyncOptions)
       (managerLookup : String → Except String (Option ManagerProduct))
       (shopifyLookup : String → Option ShopifyProduct)
       (updateErr : String → Option String) (total : Nat),
       (tallyResults total
         (keys.map (fun k =>
           syncProductStock k opts managerLookup shopifyLookup (updateErr k)))).skipped
         = 0) := by
  refine ⟨?_, ?_, ?_⟩
  · intro sku opts ml sl ue ha
    rcases syncProductStock_success_action sku opts ml sl ue with h | h | h | h
    · exact h
    · rw [ha] at h; exact absurd h (by decide)
    · rw [ha] at h; exact absurd h (by decide)
    · rw [ha] at h; exact absurd h (by decide)
  · intro acc r hr
    constructor <;> simp [tallyResult, hr]
  · intro keys opts ml sl ue total
    have hall : ∀ r ∈ keys.map (fun k =>
        syncProductStock k opts ml sl (ue k)),
        r.success = false ∨ r.action = "no_change" ∨ r.action = "would_update" ∨
        r.action = "updated" := by
      intro r hr
      rcases List.mem_map.mp hr with ⟨k, _, hk⟩
      rw [← hk]
      exact syncProductStock_success_action k opts ml sl (ue k)
    exact tally_skipped_foldl _ hall { total := total }

/-- Witness for C10 on the one-key list A absent from Manager+. -/
theorem skipped_counter_zero_witness :
    (syncProductStock "A" {} mlAbsent slAbsent none).success = false ∧
    (tallyResult {} { sku := "A", success := false, action := "skipped" }).errors = 1 ∧
    (tallyResult {} { sku := "A", success := false, action := "skipped" }).skipped = 0 ∧
    (tallyResults 1
      (["A"].map (fun k => syncProductStock k {} mlAbsent slAbsent none))).skipped = 0 := by
  have h := skipped_counter_zero
  refine ⟨h.1 "A" {} mlAbsent slAbsent none (by decide), ?_, ?_,
    h.2.2 ["A"] {} mlAbsent slAbsent (fun _ => none) 1⟩
  · exact (h.2.1 {} { sku := "A", success := false, action := "skipped" } rfl).1
  · exact (h.2.1 {} { sku := "A", success := false, action := "skipped" } rfl).2

end AxamSync
